import Mathlib

/-!
# Verification of the ToDoList web application

A shallow embedding of `src/main.py` and `src/forms.py` of the
okazimi/ToDoList-Website repository: a Flask to-do application with
registration, login, logout, per-user task listing/creation, and deletion.

The embedding models the SQLAlchemy-backed stores as lists, the Flask-Login
session as an optional user id, flash messages as a list of strings, and each
route handler as a pure function from the application state and the request
data to an `Except`-wrapped outcome (`Except.error` models an uncaught Python
exception, after which the database transaction is rolled back and the store
is unchanged).
-/

namespace ToDoApp

/-- Modelled from the spec: the Credential Store (`werkzeug.security`'s
`generate_password_hash` with method `pbkdf2:sha256` and `salt_length=8`,
used at src/main.py:124 and src/main.py:152) is external library code, not in
`src/`.  The salted one-way pbkdf2 digest is modelled as a function of the
salt and the password that is injective in the password for a fixed salt;
SHA-256 collisions are neglected, matching the spec's "false with
overwhelming probability". -/
def pbkdf2Digest (salt : Nat) (password : String) : String :=
  toString salt ++ "$" ++ password

/-- A self-describing hash token: it records the salt so that verification
can recompute the digest (werkzeug's `pbkdf2:sha256:…$salt$digest` format). -/
structure HashToken where
  salt : Nat
  digest : String
deriving DecidableEq, Repr

/-- `werkzeug.security.generate_password_hash` (salted): the caller-invisible
random salt is made an explicit parameter. -/
def generate_password_hash (salt : Nat) (password : String) : HashToken :=
  ⟨salt, pbkdf2Digest salt password⟩

/-- `werkzeug.security.check_password_hash pwhash password`: recomputes the
digest with the token's salt and compares; returns `false` on mismatch. -/
def check_password_hash (pwhash : HashToken) (password : String) : Bool :=
  pwhash.digest == pbkdf2Digest pwhash.salt password

/-- A row of the `users` table (src/main.py:30-40). -/
structure User where
  id : Nat
  email : String
  password : HashToken
  first_name : String
  last_name : String
deriving DecidableEq, Repr

/-- A row of the `todolist` table (src/main.py:44-53). -/
structure ToDoList where
  id : Nat
  content : String
  date : String
  author_id : Nat
deriving DecidableEq, Repr

/-- The mutable state shared by all requests: the two tables, the
autoincrement counters for their integer primary keys, and the Flask-Login
session (`some uid` when a user id is stored in the session cookie,
`none` when anonymous). -/
structure AppState where
  users : List User
  todolist : List ToDoList
  nextUserId : Nat
  nextTaskId : Nat
  session : Option Nat
deriving DecidableEq, Repr

/-- The empty database with sqlite's autoincrement counters at 1 and an
anonymous session. -/
def initState : AppState := ⟨[], [], 1, 1, none⟩

/-- HTTP method of a request (the routes accept GET and POST). -/
inductive Method where
  | get
  | post
deriving DecidableEq, Repr

/-- `RegisterForm` (src/forms.py:7-12).  A field is `none` when the request
carries no value for it; the `DataRequired` validators are declared on the
form but `src/main.py` never calls `validate_on_submit`, so field data is
read raw. -/
structure RegisterForm where
  first_name : Option String
  last_name : Option String
  email : Option String
  password : Option String
deriving DecidableEq, Repr

/-- `LoginForm` (src/forms.py:16-19). -/
structure LoginForm where
  email : Option String
  password : Option String
deriving DecidableEq, Repr

/-- `ToDoListForm` (src/forms.py:23-26). -/
structure ToDoListForm where
  content : Option String
  date : Option String
deriving DecidableEq, Repr

/-- Uncaught Python exceptions the handlers can raise.
`integrityError`: committing a row with NULL in a `nullable=False` column;
`typeError`: `generate_password_hash(None)` / `check_password_hash(_, None)`;
`unmappedInstanceError`: `db.session.delete(None)` (src/main.py:187). -/
inductive PyError where
  | integrityError
  | typeError
  | unmappedInstanceError
deriving DecidableEq, Repr

/-- The HTTP response a handler returns: a redirect (`redirect(url_for(…))`)
or a rendered template; `renderIndex` carries the task list handed to
`index.html`. -/
inductive Response where
  | redirectHome
  | redirectLogin
  | redirectRegister
  | renderIndex (items : List ToDoList)
  | renderLogin
  | renderRegister
deriving DecidableEq, Repr

/-- The result of one handled request: the state after commit, the flash
messages emitted, and the response. -/
structure Outcome where
  state : AppState
  flashes : List String
  response : Response
deriving DecidableEq, Repr

/-- `User.query.filter_by(email=…).first()` (src/main.py:110, 148).  The
argument is the raw form field: a missing field queries `email=None`, which
matches no row since the column is `nullable=False`. -/
def findUserByEmail (s : AppState) (email : Option String) : Option User :=
  s.users.find? (fun u => some u.email == email)

/-- `User.query.get(user_id)` — the `load_user` callback (src/main.py:63-65). -/
def load_user (s : AppState) (user_id : Nat) : Option User :=
  s.users.find? (fun u => u.id == user_id)

/-- `ToDoList.query.get(item_id)` (src/main.py:185). -/
def getTaskById (s : AppState) (item_id : Nat) : Option ToDoList :=
  s.todolist.find? (fun t => t.id == item_id)

/-- `ToDoList.query.filter_by(author_id=owner_id)` (src/main.py:84). -/
def listByOwner (s : AppState) (owner_id : Nat) : List ToDoList :=
  s.todolist.filter (fun t => t.author_id == owner_id)

/-- Flask-Login's `current_user`: the session's user id resolved through the
`load_user` callback; `none` is the anonymous user. -/
def current_user (s : AppState) : Option User :=
  s.session.bind (fun uid => load_user s uid)

/-- The `/home` route (src/main.py:78-99), wrapped in `@login_required`:
an anonymous session aborts with 401, which `custom_401` (src/main.py:69-74)
turns into a "Please Login" flash and a redirect to login.  A GET renders
the current user's tasks; a POST constructs a `ToDoList` row from the raw
form data and commits it — a missing field commits NULL into a
`nullable=False` column, raising `IntegrityError`. -/
def home (s : AppState) (method : Method) (form : ToDoListForm) :
    Except PyError Outcome :=
  match current_user s with
  | none => .ok ⟨s, ["Please Login"], .redirectLogin⟩
  | some u =>
    match method with
    | .post =>
      match form.content, form.date with
      | some c, some d =>
        .ok ⟨{ s with
                todolist := s.todolist ++ [⟨s.nextTaskId, c, d, u.id⟩],
                nextTaskId := s.nextTaskId + 1 },
             [], .redirectHome⟩
      | _, _ => .error .integrityError
    | .get => .ok ⟨s, [], .renderIndex (listByOwner s u.id)⟩

/-- The `/register` route (src/main.py:103-134).  On POST: if a user with
the submitted email exists, flash and redirect to login; otherwise hash the
password (`generate_password_hash` raises on a missing password), create the
user (commit raises `IntegrityError` if a `nullable=False` field is missing),
log the new user in, and redirect home.  The fresh salt drawn by werkzeug is
the explicit `salt` parameter. -/
def register (s : AppState) (method : Method) (form : RegisterForm)
    (salt : Nat) : Except PyError Outcome :=
  match method with
  | .get => .ok ⟨s, [], .renderRegister⟩
  | .post =>
    match findUserByEmail s form.email with
    | some _ =>
      .ok ⟨s, ["The provided email already exists, please login instead"],
           .redirectLogin⟩
    | none =>
      match form.password with
      | none => .error .typeError
      | some pw =>
        match form.first_name, form.last_name, form.email with
        | some fn, some ln, some em =>
          .ok ⟨{ s with
                  users := s.users ++
                    [⟨s.nextUserId, em, generate_password_hash salt pw, fn, ln⟩],
                  nextUserId := s.nextUserId + 1,
                  session := some s.nextUserId },
               [], .redirectHome⟩
        | _, _, _ => .error .integrityError

/-- The `/login` route (src/main.py:138-168).  On POST: look the user up by
email; absent → flash "Please register…" and redirect to register; present →
verify the password, on success log in and redirect home, on failure flash
"Password enter is incorrect…" and fall through to re-rendering the login
page. -/
def login (s : AppState) (method : Method) (form : LoginForm) :
    Except PyError Outcome :=
  match method with
  | .get => .ok ⟨s, [], .renderLogin⟩
  | .post =>
    match findUserByEmail s form.email with
    | some user =>
      match form.password with
      | none => .error .typeError
      | some pw =>
        if check_password_hash user.password pw then
          .ok ⟨{ s with session := some user.id }, [], .redirectHome⟩
        else
          .ok ⟨s, ["Password enter is incorrect. Please try again."],
               .renderLogin⟩
    | none =>
      .ok ⟨s, ["Please register to use our services"], .redirectRegister⟩

/-- The `/logout` route (src/main.py:172-177): no `@login_required` guard;
tears down the session and redirects home. -/
def logout (s : AppState) : Outcome :=
  ⟨{ s with session := none }, [], .redirectHome⟩

/-- The `/deleteToDoListItem/<item_id>` route (src/main.py:181-190), wrapped
in `@login_required`.  Looks the row up by primary key and deletes it with no
ownership check; `ToDoList.query.get` of a missing id returns `None` and
`db.session.delete(None)` raises `UnmappedInstanceError`. -/
def deleteToDoListItem (s : AppState) (item_id : Nat) :
    Except PyError Outcome :=
  match current_user s with
  | none => .ok ⟨s, ["Please Login"], .redirectLogin⟩
  | some _ =>
    match getTaskById s item_id with
    | none => .error .unmappedInstanceError
    | some _ =>
      .ok ⟨{ s with
              todolist := s.todolist.eraseP (fun t => t.id == item_id) },
           [], .redirectHome⟩

/-- One inbound request, covering every route of the application. -/
inductive Request where
  | registerReq (m : Method) (form : RegisterForm) (salt : Nat)
  | loginReq (m : Method) (form : LoginForm)
  | logoutReq
  | homeReq (m : Method) (form : ToDoListForm)
  | deleteReq (item_id : Nat)
deriving DecidableEq, Repr

/-- Dispatch one request to its route handler. -/
def routeOf (s : AppState) (r : Request) : Except PyError Outcome :=
  match r with
  | .registerReq m form salt => register s m form salt
  | .loginReq m form => login s m form
  | .logoutReq => .ok (logout s)
  | .homeReq m form => home s m form
  | .deleteReq item_id => deleteToDoListItem s item_id

/-- The state transition of one request: on an uncaught exception the
transaction is rolled back and the store is unchanged. -/
def step (s : AppState) (r : Request) : AppState :=
  match routeOf s r with
  | .ok o => o.state
  | .error _ => s

/-- Email uniqueness across the `users` table. -/
def emailsUnique (s : AppState) : Prop :=
  (s.users.map (fun u => u.email)).Nodup

instance (s : AppState) : Decidable (emailsUnique s) := by
  unfold emailsUnique; infer_instance

instance {ε α : Type} [DecidableEq ε] [DecidableEq α] :
    DecidableEq (Except ε α) := fun a b =>
  match a, b with
  | .ok x, .ok y =>
    if h : x = y then .isTrue (congrArg Except.ok h)
    else .isFalse (fun hc => h (Except.ok.inj hc))
  | .error x, .error y =>
    if h : x = y then .isTrue (congrArg Except.error h)
    else .isFalse (fun hc => h (Except.error.inj hc))
  | .ok _, .error _ => .isFalse (fun hc => Except.noConfusion hc)
  | .error _, .ok _ => .isFalse (fun hc => Except.noConfusion hc)

/-! ## Concrete sample data used by the witnesses -/

/-- A sample registered user. -/
def demoUser : User := ⟨1, "a@x.com", generate_password_hash 0 "pw1", "Alice", "A"⟩

/-- A sample task owned by `demoUser`. -/
def demoTask : ToDoList := ⟨1, "Buy milk", "2024-01-01", 1⟩

/-- One registered user, nobody logged in. -/
def demoState : AppState := ⟨[demoUser], [], 2, 1, none⟩

/-- One registered user who is logged in. -/
def demoAuthState : AppState := ⟨[demoUser], [], 2, 1, some 1⟩

/-- One logged-in user owning one task. -/
def demoTaskState : AppState := ⟨[demoUser], [demoTask], 2, 2, some 1⟩

/-- A second sample registered user. -/
def demoUser2 : User := ⟨2, "b@x.com", generate_password_hash 1 "pw2", "Bob", "B"⟩

/-- Two users; the task belongs to user 1 but user 2 is the one logged in. -/
def demoCrossState : AppState := ⟨[demoUser, demoUser2], [demoTask], 3, 2, some 2⟩

/-! ## Theorems -/

/-- Claim C10: `logout` is callable from any session state without
authentication (there is no `@login_required` on the route, so the theorem
quantifies over every state, anonymous ones included); it always leaves the
session anonymous, redirects to home, and leaves every `User` record and
every `ToDoList` record unchanged. -/
theorem logout_always_clears_session (s : AppState) :
    logout s = ⟨{ s with session := none }, [], .redirectHome⟩ ∧
    (logout s).state.session = none ∧
    (logout s).state.users = s.users ∧
    (logout s).state.todolist = s.todolist ∧
    (logout s).response = .redirectHome :=
  ⟨rfl, rfl, rfl, rfl, rfl⟩

/-- Claim C3: a POST to `/register` whose email is not already present
hashes the submitted password with a fresh salt, appends exactly one new
`User` carrying the submitted first name, last name, email and that hash
(never the raw password: the stored `password` column is the salted hash
token), logs the new user in (session set to the new id), and redirects to
the home view. -/
theorem register_fresh_creates_user (s : AppState) (fn ln em pw : String)
    (salt : Nat) (hfresh : findUserByEmail s (some em) = none) :
    register s .post ⟨some fn, some ln, some em, some pw⟩ salt =
      .ok ⟨{ s with
              users := s.users ++
                [⟨s.nextUserId, em, generate_password_hash salt pw, fn, ln⟩],
              nextUserId := s.nextUserId + 1,
              session := some s.nextUserId },
           [], .redirectHome⟩ := by
  simp [register, hfresh]

/-- Witness for `register_fresh_creates_user` at a concrete fresh email. -/
theorem register_fresh_creates_user_witness :
    findUserByEmail demoState (some "b@x.com") = none ∧
    register demoState .post ⟨some "B", some "C", some "b@x.com", some "pw"⟩ 5 =
      .ok ⟨{ demoState with
              users := demoState.users ++
                [⟨demoState.nextUserId, "b@x.com",
                  generate_password_hash 5 "pw", "B", "C"⟩],
              nextUserId := demoState.nextUserId + 1,
              session := some demoState.nextUserId },
           [], .redirectHome⟩ :=
  ⟨by decide, register_fresh_creates_user demoState "B" "C" "b@x.com" "pw" 5
    (by decide)⟩

/-- Claim C4: the three branches of a POST to `/login`.  Unknown email:
flash "Please register to use our services", redirect to register, state
(hence session) unchanged.  Known email, failing password verification:
flash "Password enter is incorrect. Please try again." and re-render the
login page (a render, not a redirect), state unchanged.  Verification
succeeds: session set to the user's id and redirect to home. -/
theorem login_branch_semantics :
    (∀ (s : AppState) (f : LoginForm), findUserByEmail s f.email = none →
      login s .post f =
        .ok ⟨s, ["Please register to use our services"], .redirectRegister⟩) ∧
    (∀ (s : AppState) (f : LoginForm) (user : User) (pw : String),
      findUserByEmail s f.email = some user → f.password = some pw →
      check_password_hash user.password pw = false →
      login s .post f =
        .ok ⟨s, ["Password enter is incorrect. Please try again."],
             .renderLogin⟩) ∧
    (∀ (s : AppState) (f : LoginForm) (user : User) (pw : String),
      findUserByEmail s f.email = some user → f.password = some pw →
      check_password_hash user.password pw = true →
      login s .post f =
        .ok ⟨{ s with session := some user.id }, [], .redirectHome⟩) := by
  refine ⟨?_, ?_, ?_⟩
  · intro s f h
    simp [login, h]
  · intro s f user pw h hpw hv
    simp [login, h, hpw, hv]
  · intro s f user pw h hpw hv
    simp [login, h, hpw, hv]

/-- Witness for `login_branch_semantics`: all three branches exercised on a
concrete store holding `demoUser`. -/
theorem login_branch_semantics_witness :
    login demoState .post ⟨some "z@x.com", some "pw1"⟩ =
      .ok ⟨demoState, ["Please register to use our services"],
           .redirectRegister⟩ ∧
    login demoState .post ⟨some "a@x.com", some "bad"⟩ =
      .ok ⟨demoState, ["Password enter is incorrect. Please try again."],
           .renderLogin⟩ ∧
    login demoState .post ⟨some "a@x.com", some "pw1"⟩ =
      .ok ⟨{ demoState with session := some demoUser.id }, [],
           .redirectHome⟩ :=
  ⟨login_branch_semantics.1 demoState ⟨some "z@x.com", some "pw1"⟩ (by decide),
   login_branch_semantics.2.1 demoState ⟨some "a@x.com", some "bad"⟩ demoUser
     "bad" (by decide) rfl (by decide),
   login_branch_semantics.2.2 demoState ⟨some "a@x.com", some "pw1"⟩ demoUser
     "pw1" (by decide) rfl (by decide)⟩

/-- Claim C9: deleting a `task_id` that is not in the store, as an
authenticated caller, is not a silent no-op: `ToDoList.query.get` yields
`None`, `db.session.delete(None)` raises `UnmappedInstanceError`, and the
store is left unchanged. -/
theorem delete_missing_id_raises (s : AppState) (item_id : Nat) (u : User)
    (hauth : current_user s = some u)
    (hmiss : getTaskById s item_id = none) :
    deleteToDoListItem s item_id = .error .unmappedInstanceError ∧
    step s (.deleteReq item_id) = s := by
  constructor
  · simp [deleteToDoListItem, hauth, hmiss]
  · simp [step, routeOf, deleteToDoListItem, hauth, hmiss]

/-- Witness for `delete_missing_id_raises`: task id 7 does not exist in
`demoAuthState`. -/
theorem delete_missing_id_raises_witness :
    deleteToDoListItem demoAuthState 7 = .error .unmappedInstanceError ∧
    step demoAuthState (.deleteReq 7) = demoAuthState :=
  delete_missing_id_raises demoAuthState 7 demoUser (by decide) (by decide)

/-- Claim C8 (refuted by the code, `forms.py` declaring the intent): the
routes never call `validate_on_submit`, so a POST to `/home` by a logged-in
user with the required `content` field absent is NOT recovered by
re-rendering the form; the handler builds a row with a NULL `content` and
the commit raises `IntegrityError` (an uncaught 500), though the store is
indeed left unchanged by the rollback. -/
theorem home_post_missing_content_raises :
    current_user demoAuthState = some demoUser ∧
    home demoAuthState .post ⟨none, some "2024-01-01"⟩ =
      .error .integrityError ∧
    step demoAuthState (.homeReq .post ⟨none, some "2024-01-01"⟩) =
      demoAuthState := by
  refine ⟨by decide, by decide, by decide⟩

/-- Claim C6: a GET on `/home` by an authenticated user renders exactly the
tasks whose `author_id` is that user's id (`filter_by(author_id=…)`); every
rendered task carries the user's id, and a task authored by a distinct user
A is never in the listing computed for B. -/
theorem home_lists_exactly_owned (s : AppState) (u : User)
    (form : ToDoListForm) (hauth : current_user s = some u) :
    home s .get form = .ok ⟨s, [], .renderIndex (listByOwner s u.id)⟩ ∧
    (∀ t ∈ listByOwner s u.id, t.author_id = u.id) ∧
    (∀ (A B : User) (t : ToDoList), t.author_id = A.id → A.id ≠ B.id →
      t ∉ listByOwner s B.id) := by
  refine ⟨by simp [home, hauth], ?_, ?_⟩
  · intro t ht
    simp only [listByOwner, List.mem_filter, beq_iff_eq] at ht
    exact ht.2
  · intro A B t hA hne hmem
    simp only [listByOwner, List.mem_filter, beq_iff_eq] at hmem
    exact hne (by rw [← hA, hmem.2])

/-- Witness for `home_lists_exactly_owned` on a store with one owned task. -/
theorem home_lists_exactly_owned_witness :
    home demoTaskState .get ⟨none, none⟩ =
      .ok ⟨demoTaskState, [],
           .renderIndex (listByOwner demoTaskState demoUser.id)⟩ ∧
    (∀ t ∈ listByOwner demoTaskState demoUser.id,
      t.author_id = demoUser.id) ∧
    (∀ (A B : User) (t : ToDoList), t.author_id = A.id → A.id ≠ B.id →
      t ∉ listByOwner demoTaskState B.id) :=
  home_lists_exactly_owned demoTaskState demoUser ⟨none, none⟩ (by decide)

/-- Claim C7: a request to a protected operation (`/home` GET or POST,
`/deleteToDoListItem`) with an anonymous session never runs the operation
body: the 401 is intercepted by `custom_401`, which flashes "Please Login"
and redirects to the login page, and the state is unchanged.  After a
successful login the same GET on `/home` succeeds with the task listing. -/
theorem unauthorized_redirects_to_login :
    (∀ (s : AppState) (m : Method) (form : ToDoListForm),
      current_user s = none →
      home s m form = .ok ⟨s, ["Please Login"], .redirectLogin⟩ ∧
      step s (.homeReq m form) = s) ∧
    (∀ (s : AppState) (item_id : Nat), current_user s = none →
      deleteToDoListItem s item_id =
        .ok ⟨s, ["Please Login"], .redirectLogin⟩ ∧
      step s (.deleteReq item_id) = s) ∧
    (∀ (s : AppState) (f : LoginForm) (user : User) (pw : String),
      findUserByEmail s f.email = some user → f.password = some pw →
      check_password_hash user.password pw = true →
      ∃ u₂ : User,
        login s .post f =
          .ok ⟨{ s with session := some user.id }, [], .redirectHome⟩ ∧
        current_user { s with session := some user.id } = some u₂ ∧
        home { s with session := some user.id } .get ⟨none, none⟩ =
          .ok ⟨{ s with session := some user.id }, [],
               .renderIndex (listByOwner s u₂.id)⟩) := by
  refine ⟨?_, ?_, ?_⟩
  · intro s m form h
    exact ⟨by simp [home, h], by simp [step, routeOf, home, h]⟩
  · intro s item_id h
    exact ⟨by simp [deleteToDoListItem, h],
           by simp [step, routeOf, deleteToDoListItem, h]⟩
  · intro s f user pw hfind hpw hv
    have hfind' : s.users.find? (fun v => some v.email == f.email) =
        some user := hfind
    have hmem : user ∈ s.users := List.mem_of_find?_eq_some hfind'
    have hsome : (s.users.find? (fun v => v.id == user.id)).isSome :=
      List.find?_isSome.mpr ⟨user, hmem, by simp⟩
    obtain ⟨u₂, hu₂⟩ := Option.isSome_iff_exists.mp hsome
    refine ⟨u₂, by simp [login, hfind, hpw, hv], ?_, ?_⟩
    · simp [current_user, load_user, hu₂]
    · simp [home, current_user, load_user, hu₂, listByOwner]

/-- Witness for `unauthorized_redirects_to_login`: anonymous access to the
two protected routes on `demoState`, then a successful login. -/
theorem unauthorized_redirects_to_login_witness :
    (home demoState .get ⟨none, none⟩ =
      .ok ⟨demoState, ["Please Login"], .redirectLogin⟩ ∧
     step demoState (.homeReq .get ⟨none, none⟩) = demoState) ∧
    (deleteToDoListItem demoState 7 =
      .ok ⟨demoState, ["Please Login"], .redirectLogin⟩ ∧
     step demoState (.deleteReq 7) = demoState) ∧
    (∃ u₂ : User,
      login demoState .post ⟨some "a@x.com", some "pw1"⟩ =
        .ok ⟨{ demoState with session := some demoUser.id }, [],
             .redirectHome⟩ ∧
      current_user { demoState with session := some demoUser.id } = some u₂ ∧
      home { demoState with session := some demoUser.id } .get ⟨none, none⟩ =
        .ok ⟨{ demoState with session := some demoUser.id }, [],
             .renderIndex (listByOwner demoState u₂.id)⟩) :=
  ⟨unauthorized_redirects_to_login.1 demoState .get ⟨none, none⟩ (by decide),
   unauthorized_redirects_to_login.2.1 demoState 7 (by decide),
   unauthorized_redirects_to_login.2.2 demoState
     ⟨some "a@x.com", some "pw1"⟩ demoUser "pw1" (by decide) rfl (by decide)⟩

/-- After erasing the first task whose id matches, no task with that id
remains, provided task ids are duplicate-free (which the primary key
guarantees in the database). -/
lemma eraseP_id_complete (item_id : Nat) :
    ∀ (l : List ToDoList), (l.map (fun t => t.id)).Nodup →
      ∀ t ∈ l.eraseP (fun t => t.id == item_id), t.id ≠ item_id := by
  intro l
  induction l with
  | nil =>
    intro _ t ht
    simp [List.eraseP] at ht
  | cons a as ih =>
    intro hnd t ht
    rw [List.map_cons, List.nodup_cons] at hnd
    by_cases ha : a.id = item_id
    · rw [List.eraseP_cons_of_pos (by simp [ha])] at ht
      intro hid
      exact hnd.1 (by
        have : t.id ∈ as.map (fun t => t.id) := List.mem_map_of_mem _ ht
        rwa [hid, ← ha] at this)
    · rw [List.eraseP_cons_of_neg (by simp [ha])] at ht
      rcases List.mem_cons.mp ht with rfl | hmem
      · exact ha
      · exact ih hnd.2 t hmem

/-- Claim C2: `deleteToDoListItem`, given an existing `task_id` and any
authenticated caller, removes that task unconditionally — there is no
hypothesis relating the caller to the task's owner, so the theorem holds in
particular when `caller.id ≠ item.author_id` — after which the owner's task
listing no longer contains a task with that id, while every other task is
still present. -/
theorem delete_removes_task_unconditionally (s : AppState) (item_id : Nat)
    (caller : User) (item : ToDoList) (hauth : current_user s = some caller)
    (hfound : getTaskById s item_id = some item) :
    deleteToDoListItem s item_id =
      .ok ⟨{ s with
              todolist := s.todolist.eraseP (fun t => t.id == item_id) },
           [], .redirectHome⟩ ∧
    item.id = item_id ∧
    (∀ t ∈ s.todolist, t.id ≠ item_id →
      t ∈ s.todolist.eraseP (fun t => t.id == item_id)) ∧
    ((s.todolist.map (fun t => t.id)).Nodup →
      ∀ t ∈ listByOwner
          { s with
             todolist := s.todolist.eraseP (fun t => t.id == item_id) }
          item.author_id,
        t.id ≠ item_id) := by
  refine ⟨by simp [deleteToDoListItem, hauth, hfound], ?_, ?_, ?_⟩
  · have hfound' : s.todolist.find? (fun t => t.id == item_id) = some item :=
      hfound
    have := List.find?_some hfound'
    simpa using this
  · intro t htl hne
    exact (List.mem_eraseP_of_neg (by simp [hne])).mpr htl
  · intro hnd t ht
    simp only [listByOwner, List.mem_filter] at ht
    exact eraseP_id_complete item_id s.todolist hnd t ht.1

/-- Witness for `delete_removes_task_unconditionally`: the logged-in caller
(user 2) is not the owner (user 1) of the deleted task, and the deletion
succeeds nevertheless. -/
theorem delete_removes_task_unconditionally_witness :
    deleteToDoListItem demoCrossState 1 =
      .ok ⟨{ demoCrossState with
              todolist := demoCrossState.todolist.eraseP
                (fun t => t.id == 1) },
           [], .redirectHome⟩ ∧
    demoTask.id = 1 ∧
    (∀ t ∈ demoCrossState.todolist, t.id ≠ 1 →
      t ∈ demoCrossState.todolist.eraseP (fun t => t.id == 1)) ∧
    ((demoCrossState.todolist.map (fun t => t.id)).Nodup →
      ∀ t ∈ listByOwner
          { demoCrossState with
             todolist := demoCrossState.todolist.eraseP
               (fun t => t.id == 1) }
          demoTask.author_id,
        t.id ≠ 1) :=
  delete_removes_task_unconditionally demoCrossState 1 demoUser2 demoTask
    (by decide) (by decide)

/-- `login` never changes the `users` table. -/
lemma login_ok_users (s : AppState) (m : Method) (f : LoginForm)
    (o : Outcome) (h : login s m f = .ok o) : o.state.users = s.users := by
  unfold login at h
  repeat' split at h
  all_goals
    first
      | (injection h with h; subst h; rfl)
      | exact Except.noConfusion h

/-- `home` never changes the `users` table. -/
lemma home_ok_users (s : AppState) (m : Method) (f : ToDoListForm)
    (o : Outcome) (h : home s m f = .ok o) : o.state.users = s.users := by
  unfold home at h
  repeat' split at h
  all_goals
    first
      | (injection h with h; subst h; rfl)
      | exact Except.noConfusion h

/-- `deleteToDoListItem` never changes the `users` table. -/
lemma delete_ok_users (s : AppState) (item_id : Nat) (o : Outcome)
    (h : deleteToDoListItem s item_id = .ok o) : o.state.users = s.users := by
  unfold deleteToDoListItem at h
  repeat' split at h
  all_goals
    first
      | (injection h with h; subst h; rfl)
      | exact Except.noConfusion h

/-- A successful `register` preserves email uniqueness: its duplicate
pre-check means the appended user's email is fresh. -/
lemma register_ok_emailsUnique (s : AppState) (m : Method)
    (form : RegisterForm) (salt : Nat) (o : Outcome)
    (h : register s m form salt = .ok o) (hu : emailsUnique s) :
    emailsUnique o.state := by
  obtain ⟨fn?, ln?, em?, pw?⟩ := form
  cases m with
  | get =>
    simp only [register] at h
    injection h with h
    subst h
    exact hu
  | post =>
    simp only [register] at h
    cases hfind : findUserByEmail s em? with
    | some u =>
      rw [hfind] at h
      injection h with h
      subst h
      exact hu
    | none =>
      rw [hfind] at h
      cases pw? with
      | none => exact absurd h (by simp)
      | some pw =>
        cases fn? with
        | none => exact absurd h (by simp)
        | some fn =>
          cases ln? with
          | none => exact absurd h (by simp)
          | some ln =>
            cases em? with
            | none => exact absurd h (by simp)
            | some em =>
              simp only [Except.ok.injEq] at h
              subst h
              have hall : ∀ u ∈ s.users, ¬ u.email = em := by
                intro u humem heq
                have hnone : s.users.find?
                    (fun u => some u.email == some em) = none := hfind
                have := List.find?_eq_none.mp hnone u humem
                simp [heq] at this
              show ((s.users ++
                [(⟨s.nextUserId, em, generate_password_hash salt pw,
                  fn, ln⟩ : User)]).map (fun u => u.email)).Nodup
              rw [List.map_append, List.nodup_append]
              refine ⟨hu, by simp, ?_⟩
              intro a ha hb
              simp at hb
              rcases List.mem_map.mp ha with ⟨u, humem, rfl⟩
              exact hall u humem hb

/-- Every single request preserves email uniqueness of the user store. -/
lemma step_preserves_emailsUnique (s : AppState) (r : Request)
    (hu : emailsUnique s) : emailsUnique (step s r) := by
  have husers : ∀ o : Outcome, routeOf s r = .ok o →
      emailsUnique o.state := by
    intro o ho
    cases r with
    | registerReq m form salt =>
      exact register_ok_emailsUnique s m form salt o ho hu
    | loginReq m form =>
      unfold emailsUnique
      rw [login_ok_users s m form o ho]
      exact hu
    | logoutReq =>
      simp only [routeOf, Except.ok.injEq] at ho
      subst ho
      exact hu
    | homeReq m form =>
      unfold emailsUnique
      rw [home_ok_users s m form o ho]
      exact hu
    | deleteReq item_id =>
      unfold emailsUnique
      rw [delete_ok_users s item_id o ho]
      exact hu
  show emailsUnique (match routeOf s r with
    | .ok o => o.state
    | .error _ => s)
  cases hres : routeOf s r with
  | ok o => exact husers o hres
  | error e => exact hu

/-- Claim C1: email uniqueness is an invariant of the user store.  First
conjunct: after any sequence of requests from the initial store (register
included), the emails of the `users` table are pairwise distinct, so
registering twice with the same email never yields two `User` rows.  Second
conjunct: a POST to `/register` whose email already resolves through
`findUserByEmail` creates no user, leaves the state unchanged, flashes the
duplicate-email notice, and redirects to login. -/
theorem register_preserves_email_uniqueness :
    (∀ rs : List Request, emailsUnique (rs.foldl step initState)) ∧
    (∀ (s : AppState) (form : RegisterForm) (salt : Nat) (u : User),
      findUserByEmail s form.email = some u →
      register s .post form salt =
        .ok ⟨s, ["The provided email already exists, please login instead"],
             .redirectLogin⟩) := by
  constructor
  · have key : ∀ (rs : List Request) (s : AppState), emailsUnique s →
        emailsUnique (rs.foldl step s) := by
      intro rs
      induction rs with
      | nil => intro s hs; exact hs
      | cons r rest ih =>
        intro s hs
        exact ih (step s r) (step_preserves_emailsUnique s r hs)
    intro rs
    exact key rs initState (by decide)
  · intro s form salt u h
    simp [register, h]

/-- Witness for `register_preserves_email_uniqueness`: a one-request
sequence, and a duplicate registration against `demoState` rejected with the
notice and no state change. -/
theorem register_preserves_email_uniqueness_witness :
    emailsUnique
      ([Request.registerReq .post
          ⟨some "B", some "C", some "b@x.com", some "pw"⟩ 5].foldl step
        initState) ∧
    register demoState .post ⟨some "A", some "A", some "a@x.com", some "q"⟩ 3 =
      .ok ⟨demoState,
           ["The provided email already exists, please login instead"],
           .redirectLogin⟩ :=
  ⟨register_preserves_email_uniqueness.1 _,
   register_preserves_email_uniqueness.2 demoState
     ⟨some "A", some "A", some "a@x.com", some "q"⟩ 3 demoUser (by decide)⟩

/-- For a fixed salt the modelled digest determines the password. -/
lemma pbkdf2Digest_inj (salt : Nat) (pw wrong : String)
    (h : pbkdf2Digest salt pw = pbkdf2Digest salt wrong) : pw = wrong := by
  unfold pbkdf2Digest at h
  have h2 := congrArg String.data h
  simp only [String.data_append] at h2
  exact String.ext (List.append_cancel_left h2)

/-- `find?` skips a prefix in which nothing matches. -/
lemma find?_append_none {α : Type} (p : α → Bool) (l₁ l₂ : List α)
    (h : l₁.find? p = none) : (l₁ ++ l₂).find? p = l₂.find? p := by
  induction l₁ with
  | nil => rfl
  | cons a as ih =>
    by_cases hpa : p a
    · rw [List.find?_cons_of_pos _ hpa] at h
      exact absurd h (by simp)
    · rw [List.find?_cons_of_neg _ (by simpa using hpa)] at h
      rw [List.cons_append, List.find?_cons_of_neg _ (by simpa using hpa)]
      exact ih h

/-- Claim C5: credential round-trip.  `check_password_hash` of a freshly
generated hash with the same password is `true` for every password and
salt; with a different password it is `false` (the modelled digest is
injective in the password; it returns `false`, it never raises, on a wrong
password).  Consequently a registration under a fresh email followed by a
login with the same email and password succeeds and redirects home. -/
theorem hash_verify_roundtrip :
    (∀ (salt : Nat) (pw : String),
      check_password_hash (generate_password_hash salt pw) pw = true) ∧
    (∀ (salt : Nat) (pw wrong : String), wrong ≠ pw →
      check_password_hash (generate_password_hash salt pw) wrong = false) ∧
    (∀ (s : AppState) (fn ln em pw : String) (salt : Nat),
      findUserByEmail s (some em) = none →
      ∃ s₁ : AppState,
        register s .post ⟨some fn, some ln, some em, some pw⟩ salt =
          .ok ⟨s₁, [], .redirectHome⟩ ∧
        login s₁ .post ⟨some em, some pw⟩ =
          .ok ⟨{ s₁ with session := some s.nextUserId }, [],
               .redirectHome⟩) := by
  refine ⟨?_, ?_, ?_⟩
  · intro salt pw
    simp [check_password_hash, generate_password_hash]
  · intro salt pw wrong hne
    have hd : pbkdf2Digest salt pw ≠ pbkdf2Digest salt wrong := by
      intro h
      exact hne (pbkdf2Digest_inj salt pw wrong h).symm
    simpa [check_password_hash, generate_password_hash] using
      beq_eq_false_iff_ne.mpr hd
  · intro s fn ln em pw salt hfresh
    refine ⟨{ s with
              users := s.users ++
                [⟨s.nextUserId, em, generate_password_hash salt pw, fn, ln⟩],
              nextUserId := s.nextUserId + 1,
              session := some s.nextUserId }, ?_, ?_⟩
    · simp [register, hfresh]
    · have hfreshl : s.users.find? (fun u => some u.email == some em) =
          none := hfresh
      have hfind : findUserByEmail
          { s with
            users := s.users ++
              [⟨s.nextUserId, em, generate_password_hash salt pw, fn, ln⟩],
            nextUserId := s.nextUserId + 1,
            session := some s.nextUserId } (some em) =
          some ⟨s.nextUserId, em, generate_password_hash salt pw, fn, ln⟩ := by
        show (s.users ++
            [(⟨s.nextUserId, em, generate_password_hash salt pw, fn, ln⟩ :
              User)]).find? (fun u => some u.email == some em) =
          some ⟨s.nextUserId, em, generate_password_hash salt pw, fn, ln⟩
        rw [find?_append_none _ _ _ hfreshl]
        exact List.find?_cons_of_pos _ (by simp)
      simp only [login]
      rw [hfind]
      simp [check_password_hash, generate_password_hash]

/-- Witness for `hash_verify_roundtrip` on concrete credentials. -/
theorem hash_verify_roundtrip_witness :
    check_password_hash (generate_password_hash 7 "pw1") "pw1" = true ∧
    check_password_hash (generate_password_hash 7 "pw1") "pw2" = false ∧
    (∃ s₁ : AppState,
      register demoState .post
          ⟨some "B", some "C", some "b@x.com", some "pw"⟩ 5 =
        .ok ⟨s₁, [], .redirectHome⟩ ∧
      login s₁ .post ⟨some "b@x.com", some "pw"⟩ =
        .ok ⟨{ s₁ with session := some demoState.nextUserId }, [],
             .redirectHome⟩) :=
  ⟨hash_verify_roundtrip.1 7 "pw1",
   hash_verify_roundtrip.2.1 7 "pw1" "pw2" (by decide),
   hash_verify_roundtrip.2.2 demoState "B" "C" "b@x.com" "pw" 5 (by decide)⟩

end ToDoApp
